import Mathlib

/-!
Verification of the decryption core of the gwm-data-processor repository.

The Python sources embedded here are:
  - decryption_tools/automated_decryption_pipeline.py
      (AutomatedDecryptionPipeline.decrypt_aes_key, decrypt_location_data,
       _process_survey_group, _extract_location_points)
  - decryption_tools/decrypt_survey_data.py (decrypt_hybrid_format key handling)
  - structure_tools/analyze_encryption_limits.py (_encrypt_xor / _decrypt_xor)

Modelling conventions:
  - A Python byte is a natural number (with values below 256 on real inputs);
    byte strings are lists of naturals.
  - Python exceptions are explicit: a computation that may raise has type
    Except PyErr A, where the error carries the exception message.  A
    try/except block is an explicit match on that value.
  - Calls into external libraries (base64, json, the cryptography package)
    are fields of a Libs structure: they are parameters of the embedding,
    since those libraries are not part of the repository.  Every theorem
    holds for an arbitrary Libs instance, i.e. for any behaviour of the
    external libraries.
  - Parsed JSON values are modelled by the inductive JVal; Python dict
    access and Python truthiness on such values are defined concretely,
    matching the semantics of the Python interpreter.
-/

/-- A Python exception, carrying the message produced by str(e). -/
abbrev PyErr := String

/-- A parsed JSON value, the result of json.loads. -/
inductive JVal where
  | str (s : String)
  | num (n : Int)
  | bool (b : Bool)
  | null
  | arr (items : List JVal)
  | obj (fields : List (String × JVal))

/-- Python truthiness of a parsed JSON value: empty containers, empty
strings, zero, False and None are falsy. -/
def JVal.truthy : JVal → Bool
  | .str s => !(s.isEmpty)
  | .num n => n != 0
  | .bool b => b
  | .null => false
  | .arr items => !(items.isEmpty)
  | .obj fields => !(fields.isEmpty)

/-- Python dict.get with default None, raising AttributeError (as Python
does) when the receiver is not a dict. -/
def JVal.pyGet : JVal → String → Except PyErr JVal
  | .obj fields, k =>
      .ok (match fields.lookup k with
           | some v => v
           | none => .null)
  | _, _ => .error "object has no attribute get"

/-- Python dict.get with a default value, defined only on dicts (used where
the receiver is already known to be a dict). -/
def JVal.getD (v : JVal) (k : String) (d : JVal) : JVal :=
  match v with
  | .obj fields =>
      match fields.lookup k with
      | some w => w
      | none => d
  | _ => d

/-- Python str.startswith, on Lean strings. -/
def pyStartsWith (s pre : String) : Bool :=
  List.isPrefixOf pre.toList s.toList

/-- Python slicing s[:n] on a string. -/
def pySlice (s : String) (n : Nat) : String :=
  String.mk (s.toList.take n)

/-- The external library functions the decryption core calls.  Each field
models one Python callable; returning Except.error models that call
raising an exception with the given message. -/
structure Libs where
  /-- base64.b64decode on a str argument. -/
  b64 : String → Except PyErr (List Nat)
  /-- bytes.decode with encoding utf-8. -/
  utf8d : List Nat → Except PyErr String
  /-- json.loads. -/
  jsonp : String → Except PyErr JVal
  /-- self.private_key.decrypt with OAEP(MGF1(SHA-256), SHA-256, label None). -/
  rsaOaep : List Nat → Except PyErr (List Nat)
  /-- self.private_key.decrypt with PKCS1v15 padding. -/
  rsaPkcs1 : List Nat → Except PyErr (List Nat)
  /-- AES-GCM decryption: key, nonce, auth tag, ciphertext to plaintext. -/
  gcmDec : List Nat → List Nat → List Nat → List Nat → Except PyErr (List Nat)
  /-- AES-CBC decryption: key, iv, ciphertext to padded plaintext. -/
  cbcDec : List Nat → List Nat → List Nat → Except PyErr (List Nat)
  /-- Python str() on a parsed JSON value. -/
  strOf : JVal → String

/-- The XOR loop shared by _encrypt_xor, _decrypt_xor
(analyze_encryption_limits.py) and method 1 of decrypt_location_data:
for i in range(len(data)): out.append(data[i] ^ key[i % len(key)]).
Faithful for nonempty key; Python raises ZeroDivisionError on an empty
key, which callers model separately. -/
def xor_cycle (data key : List Nat) : List Nat :=
  (List.range data.length).map fun i =>
    Nat.xor (data.getD i 0) (key.getD (i % key.length) 0)

lemma xor_cycle_length (data key : List Nat) :
    (xor_cycle data key).length = data.length := by
  simp [xor_cycle]

lemma xor_cycle_getElem (data key : List Nat) (i : Nat) (h : i < data.length) :
    (xor_cycle data key).getD i 0
      = Nat.xor (data.getD i 0) (key.getD (i % key.length) 0) := by
  simp [xor_cycle, List.getD, List.getElem?_map, List.getElem?_range, h]

/-!
Key Unwrapper: AutomatedDecryptionPipeline.decrypt_aes_key
(automated_decryption_pipeline.py lines 131-165).

    try:
        encrypted_key = base64.b64decode(encrypted_key_b64)
        try:
            decrypted_data = self.private_key.decrypt(encrypted_key, OAEP(...))
            aes_key_base64 = decrypted_data.decode('utf-8')
            aes_key = base64.b64decode(aes_key_base64)
            return aes_key
        except Exception:
            decrypted_data = self.private_key.decrypt(encrypted_key, PKCS1v15())
            aes_key_base64 = decrypted_data.decode('utf-8')
            aes_key = base64.b64decode(aes_key_base64)
            return aes_key
    except Exception as e:
        print(...)
        return None
-/

/-- Body of the inner try of decrypt_aes_key: the OAEP attempt, including
the UTF-8 decode and the secondary base64 decode of the RSA plaintext. -/
def dak_oaep_body (L : Libs) (encrypted_key : List Nat) : Except PyErr (List Nat) :=
  match L.rsaOaep encrypted_key with
  | .error e => .error e
  | .ok decrypted_data =>
    match L.utf8d decrypted_data with
    | .error e => .error e
    | .ok aes_key_base64 => L.b64 aes_key_base64

/-- Body of the inner except handler of decrypt_aes_key: the PKCS1v15
attempt, again followed by UTF-8 decode and secondary base64 decode.
Exceptions raised here propagate to the outer except handler. -/
def dak_pkcs1_body (L : Libs) (encrypted_key : List Nat) : Except PyErr (List Nat) :=
  match L.rsaPkcs1 encrypted_key with
  | .error e => .error e
  | .ok decrypted_data =>
    match L.utf8d decrypted_data with
    | .error e => .error e
    | .ok aes_key_base64 => L.b64 aes_key_base64

/-- The body of the outer try of decrypt_aes_key, with the inner
try/except made explicit. -/
def decrypt_aes_key_exc (L : Libs) (encrypted_key_b64 : String) :
    Except PyErr (List Nat) :=
  match L.b64 encrypted_key_b64 with
  | .error e => .error e
  | .ok encrypted_key =>
    match dak_oaep_body L encrypted_key with
    | .ok aes_key => .ok aes_key
    | .error _ => dak_pkcs1_body L encrypted_key

/-- AutomatedDecryptionPipeline.decrypt_aes_key: the outer except handler
turns any escaped exception into the return value None. -/
def decrypt_aes_key (L : Libs) (encrypted_key_b64 : String) : Option (List Nat) :=
  match decrypt_aes_key_exc L encrypted_key_b64 with
  | .ok aes_key => some aes_key
  | .error _ => none

/-- decrypt_aes_key as invoked from _process_survey_group, which passes it
whatever value the envelope carried: base64.b64decode raises a TypeError
on a non-str argument, which the outer except converts to None. -/
def decrypt_aes_key_j (L : Libs) : JVal → Option (List Nat)
  | .str s => decrypt_aes_key L s
  | _ => none

/-!
Payload Decipherer: AutomatedDecryptionPipeline.decrypt_location_data
(automated_decryption_pipeline.py lines 167-231).
-/

/-- Python unpadding as written in method 3 of decrypt_location_data:
padding_length = padded_data[-1]; unpadded_data = padded_data[:-padding_length].
On empty input, padded_data[-1] raises IndexError (modelled as none).
Note the Python quirk: a final byte of 0 gives padded_data[:-0], which is
the EMPTY byte string, and a final byte larger than the length also gives
the empty byte string.  No PKCS7 validation is performed. -/
def pyUnpad (padded_data : List Nat) : Option (List Nat) :=
  match padded_data.getLast? with
  | none => none
  | some padding_length =>
      some (if padding_length = 0 then []
            else padded_data.take (padded_data.length - padding_length))

/-- Method 1 of decrypt_location_data: the XOR attempt.  With an empty key
the index expression aes_key[i % len(aes_key)] raises ZeroDivisionError. -/
def attempt_xor (L : Libs) (encrypted_data aes_key : List Nat) : Except PyErr JVal :=
  if aes_key.isEmpty then .error "integer modulo by zero"
  else
    match L.utf8d (xor_cycle encrypted_data aes_key) with
    | .error e => .error e
    | .ok decrypted_json => L.jsonp decrypted_json

/-- Method 2 of decrypt_location_data: the AES-GCM attempt.  The length
guard is inside the try; when it fails the block completes without
returning (modelled as ok none). -/
def attempt_gcm (L : Libs) (encrypted_data aes_key : List Nat) :
    Except PyErr (Option JVal) :=
  if 28 ≤ encrypted_data.length then
    match L.gcmDec aes_key (encrypted_data.take 12)
        (encrypted_data.drop (encrypted_data.length - 16))
        ((encrypted_data.drop 12).take (encrypted_data.length - 28)) with
    | .error e => .error e
    | .ok decrypted_json =>
      match L.utf8d decrypted_json with
      | .error e => .error e
      | .ok s =>
        match L.jsonp s with
        | .error e => .error e
        | .ok j => .ok (some j)
  else .ok none

/-- Method 3 of decrypt_location_data: the AES-CBC attempt (the length
guard sits outside this try block in the source). -/
def attempt_cbc (L : Libs) (encrypted_data aes_key : List Nat) : Except PyErr JVal :=
  match L.cbcDec aes_key (encrypted_data.take 16) (encrypted_data.drop 16) with
  | .error e => .error e
  | .ok padded_data =>
    match pyUnpad padded_data with
    | none => .error "index out of range"
    | some unpadded_data =>
      match L.utf8d unpadded_data with
      | .error e => .error e
      | .ok decrypted_json => L.jsonp decrypted_json

/-- The sequence of the three methods after the initial base64 decode,
with each inner try/except made explicit: a method that raises is caught
and the next method runs; falling off the end returns None. -/
def decrypt_body (L : Libs) (encrypted_data aes_key : List Nat) : Option JVal :=
  match attempt_xor L encrypted_data aes_key with
  | .ok j => some j
  | .error _ =>
    match (match attempt_gcm L encrypted_data aes_key with
           | .ok returned => returned
           | .error _ => none) with
    | some j => some j
    | none =>
      if 16 < encrypted_data.length then
        match attempt_cbc L encrypted_data aes_key with
        | .ok j => some j
        | .error _ => none
      else none

/-- The outer try of decrypt_location_data: only the initial base64 decode
can raise outside the inner try blocks; the outer except returns None. -/
def decrypt_location_data_exc (L : Libs) (encrypted_data_b64 : String)
    (aes_key : List Nat) : Except PyErr (Option JVal) :=
  match (match L.b64 encrypted_data_b64 with
         | .error e => (.error e : Except PyErr (Option JVal))
         | .ok encrypted_data => .ok (decrypt_body L encrypted_data aes_key)) with
  | .error _ => .ok none
  | .ok r => .ok r

/-- AutomatedDecryptionPipeline.decrypt_location_data: returns the parsed
JSON of the first successful method, None otherwise. -/
def decrypt_location_data (L : Libs) (encrypted_data_b64 : String)
    (aes_key : List Nat) : Option JVal :=
  match decrypt_location_data_exc L encrypted_data_b64 aes_key with
  | .error _ => none
  | .ok r => r

/-- decrypt_location_data as invoked from _process_survey_group on the
envelope field value: a non-str argument makes base64.b64decode raise,
which the outer except converts to None. -/
def decrypt_location_data_j (L : Libs) (v : JVal) (aes_key : List Nat) : Option JVal :=
  match v with
  | .str s => decrypt_location_data L s aes_key
  | _ => none

/-!
Candidate-chain presentation of the decipherer, stated as in the
specification: an ordered list of candidates, each an Option, combined
with orElse (first success wins).  The theorems below prove the nested
try/except control flow of the source equal to this presentation.
-/

/-- The XOR candidate as the specification states it: XOR every ciphertext
byte with key_bytes[i % len(key_bytes)], then UTF-8 decode, then JSON
parse (meaningful for a nonempty key). -/
def xorCandidate (L : Libs) (ciphertext key_bytes : List Nat) : Option JVal :=
  (L.utf8d (xor_cycle ciphertext key_bytes)).toOption.bind fun s =>
    (L.jsonp s).toOption

/-- The AES-GCM candidate as the specification states it: only for
ciphertexts of at least 28 bytes, first 12 bytes the nonce, last 16 bytes
the tag, remainder the ciphertext. -/
def gcmCandidate (L : Libs) (ciphertext key_bytes : List Nat) : Option JVal :=
  if 28 ≤ ciphertext.length then
    (L.gcmDec key_bytes (ciphertext.take 12)
        (ciphertext.drop (ciphertext.length - 16))
        ((ciphertext.drop 12).take (ciphertext.length - 28))).toOption.bind fun pt =>
      (L.utf8d pt).toOption.bind fun s => (L.jsonp s).toOption
  else none

/-- The AES-CBC candidate as the specification states it: only for
ciphertexts longer than 16 bytes, first 16 bytes the IV, remainder the
ciphertext, stripped using the final byte as the padding length. -/
def cbcCandidate (L : Libs) (ciphertext key_bytes : List Nat) : Option JVal :=
  if 16 < ciphertext.length then
    (L.cbcDec key_bytes (ciphertext.take 16) (ciphertext.drop 16)).toOption.bind
      fun padded => (pyUnpad padded).bind fun up =>
        (L.utf8d up).toOption.bind fun s => (L.jsonp s).toOption
  else none

lemma attempt_xor_chain (L : Libs) (data key : List Nat) (hk : key ≠ []) :
    (match attempt_xor L data key with
     | .ok j => some j
     | .error _ => none) = xorCandidate L data key := by
  have hk' : key.isEmpty = false := by
    cases key with
    | nil => exact absurd rfl hk
    | cons a l => rfl
  unfold attempt_xor xorCandidate
  rw [hk']
  simp only [Bool.false_eq_true, if_false]
  cases h1 : L.utf8d (xor_cycle data key) with
  | error e => simp [Except.toOption]
  | ok s =>
    cases h2 : L.jsonp s with
    | error e => simp [Except.toOption, h2]
    | ok j => simp [Except.toOption, h2]

lemma attempt_gcm_chain (L : Libs) (data key : List Nat) :
    (match attempt_gcm L data key with
     | .ok returned => returned
     | .error _ => none) = gcmCandidate L data key := by
  unfold attempt_gcm gcmCandidate
  by_cases hlen : 28 ≤ data.length
  · rw [if_pos hlen, if_pos hlen]
    cases h1 : L.gcmDec key (data.take 12) (data.drop (data.length - 16))
        ((data.drop 12).take (data.length - 28)) with
    | error e => simp [Except.toOption]
    | ok pt =>
      cases h2 : L.utf8d pt with
      | error e => simp [Except.toOption, h2]
      | ok s =>
        cases h3 : L.jsonp s with
        | error e => simp [Except.toOption, h2, h3]
        | ok j => simp [Except.toOption, h2, h3]
  · rw [if_neg hlen, if_neg hlen]

lemma attempt_cbc_chain (L : Libs) (data key : List Nat) (hlen : 16 < data.length) :
    (match attempt_cbc L data key with
     | .ok j => some j
     | .error _ => none) = cbcCandidate L data key := by
  unfold attempt_cbc cbcCandidate
  rw [if_pos hlen]
  cases h1 : L.cbcDec key (data.take 16) (data.drop 16) with
  | error e => simp [Except.toOption]
  | ok padded =>
    cases h2 : pyUnpad padded with
    | none => simp [Except.toOption, h2]
    | some up =>
      cases h3 : L.utf8d up with
      | error e => simp [Except.toOption, h2, h3]
      | ok s =>
        cases h4 : L.jsonp s with
        | error e => simp [Except.toOption, h2, h3, h4]
        | ok j => simp [Except.toOption, h2, h3, h4]

/-- Claim C1 helper: the body of the decipherer equals the ordered
candidate chain. -/
lemma decrypt_body_eq_chain (L : Libs) (data key : List Nat) (hk : key ≠ []) :
    decrypt_body L data key
      = ((xorCandidate L data key).orElse fun _ =>
          ((gcmCandidate L data key).orElse fun _ =>
            cbcCandidate L data key)) := by
  unfold decrypt_body
  rw [← attempt_xor_chain L data key hk]
  cases attempt_xor L data key with
  | ok j => simp [Option.orElse]
  | error e =>
    rw [attempt_gcm_chain L data key]
    cases gcmCandidate L data key with
    | some j => simp [Option.orElse]
    | none =>
      by_cases hlen : 16 < data.length
      · rw [if_pos hlen, attempt_cbc_chain L data key hlen]
        simp [Option.orElse]
      · have hcbc : cbcCandidate L data key = none := by
          unfold cbcCandidate
          rw [if_neg hlen]
        rw [if_neg hlen, hcbc]
        simp [Option.orElse]

lemma xor_cycle_getElem? (data key : List Nat) (i : Nat) :
    (xor_cycle data key)[i]?
      = (data[i]?).map fun b => Nat.xor b (key.getD (i % key.length) 0) := by
  unfold xor_cycle
  rw [List.getElem?_map]
  by_cases h : i < data.length
  · rw [List.getElem?_range h, List.getElem?_eq_getElem h]
    simp [List.getD, List.getElem?_eq_getElem h]
  · rw [List.getElem?_eq_none (by simpa using Nat.le_of_not_lt h),
        List.getElem?_eq_none (by simp [Nat.le_of_not_lt h])]
    rfl

/-- Claim C7: XOR-encrypting with a nonempty key and applying the same XOR
transformation again returns the original plaintext bytes exactly
(round-trip law for _encrypt_xor / _decrypt_xor and the XOR method of the
decipherer, which all run the same loop xor_cycle). -/
theorem c7_xor_roundtrip (data key : List Nat) (_hk : key ≠ []) :
    xor_cycle (xor_cycle data key) key = data := by
  apply List.ext_getElem?
  intro i
  rw [xor_cycle_getElem?, xor_cycle_getElem?]
  cases hd : data[i]? with
  | none => rfl
  | some b =>
    simp only [Option.map]
    exact congrArg some (Nat.xor_cancel_right _ b)

/-- Witness for C7 at a concrete plaintext and key. -/
theorem c7_xor_roundtrip_witness :
    ([3, 7] : List Nat) ≠ []
      ∧ xor_cycle (xor_cycle [10, 20, 30] [3, 7]) [3, 7] = [10, 20, 30] :=
  ⟨by decide, c7_xor_roundtrip [10, 20, 30] [3, 7] (by decide)⟩

/-- Claim C1: for every ciphertext byte string and key, the decipherer
tries the XOR candidate first, then (only if XOR failed and the ciphertext
has at least 28 bytes) the AES-GCM candidate with layout
nonce(12) / ciphertext / tag(16), then (only if both failed and the
ciphertext is longer than 16 bytes) the AES-CBC candidate with layout
iv(16) / ciphertext; the result is the parsed JSON of the first candidate
that succeeds and None when no candidate succeeds (including when the
initial base64 decode fails). -/
theorem c1_decipher_candidate_order (L : Libs) (key : List Nat) (hk : key ≠ []) :
    (∀ data, decrypt_body L data key
        = ((xorCandidate L data key).orElse fun _ =>
            ((gcmCandidate L data key).orElse fun _ =>
              cbcCandidate L data key)))
      ∧ (∀ s, decrypt_location_data L s key
          = match L.b64 s with
            | .error _ => none
            | .ok data => decrypt_body L data key) := by
  constructor
  · intro data
    exact decrypt_body_eq_chain L data key hk
  · intro s
    unfold decrypt_location_data decrypt_location_data_exc
    cases L.b64 s with
    | error e => rfl
    | ok data => rfl

/-- The literal marker for a direct-JSON envelope (lines 350, 358, 466). -/
def jsonPfx : String := "\x7b\"encryptedData\""

/-- The marker for a base64-wrapped envelope, the base64 encoding of the
two characters opening a JSON object (lines 351, 361, 471). -/
def b64Pfx : String := "eyJ"

/-- A concrete raw field: a JSON envelope carrying encryptedData but no
encryptedKey (the malformed input named by the specification). -/
def malformedEnvelopeStr : String := "\x7b\"encryptedData\":\"not-base64!!\"\x7d"

/-- The parsed form of malformedEnvelopeStr. -/
def malformedEnvelopeVal : JVal := JVal.obj [("encryptedData", JVal.str "not-base64!!")]

/-- A concrete raw field: a JSON envelope carrying both fields, with an
encryptedKey that is not valid base64. -/
def envBothStr : String :=
  "\x7b\"encryptedData\":\"QQ==\",\"encryptedKey\":\"not-base64!!\"\x7d"

/-- The parsed form of envBothStr. -/
def envBothVal : JVal :=
  JVal.obj [("encryptedData", JVal.str "QQ=="), ("encryptedKey", JVal.str "not-base64!!")]

/-- A concrete raw field: a JSON envelope whose payload decrypts to a
truthy non-dict JSON value (a list), reaching the exception sites of
lines 386-397. -/
def envLocStr : String :=
  "\x7b\"encryptedData\":\"AAE\",\"encryptedKey\":\"KEY2\"\x7d"

/-- The parsed form of envLocStr. -/
def envLocVal : JVal :=
  JVal.obj [("encryptedData", JVal.str "AAE"), ("encryptedKey", JVal.str "KEY2")]

/-- A concrete executable instance of the external libraries, used by the
witness and counterexample theorems.  Recognises just enough inputs to
exercise each code path. -/
def testLibs : Libs where
  b64 := fun s =>
    if s = "AAE" then .ok [0, 1]
    else if s = "AAk" then .ok [9]
    else if s = "KEY2" then .ok [7]
    else if s = "c2tl" then .ok [123]
    else .error "binascii invalid base64"
  utf8d := fun b =>
    if b = [123, 125] then .ok "\x7b\x7d"
    else if b = [101] then .ok "c2tl"
    else if b = [123, 122] then .ok "[1]"
    else .error "utf-8 codec cannot decode"
  jsonp := fun s =>
    if s = "\x7b\x7d" then .ok (JVal.obj [])
    else if s = malformedEnvelopeStr then .ok malformedEnvelopeVal
    else if s = envBothStr then .ok envBothVal
    else if s = envLocStr then .ok envLocVal
    else if s = "[1]" then .ok (JVal.arr [JVal.num 1])
    else .error "json expecting value"
  rsaOaep := fun _ => .error "oaep decryption failed"
  rsaPkcs1 := fun k =>
    if k = [9] then .ok [200]
    else if k = [7] then .ok [101]
    else .error "pkcs1 decryption failed"
  gcmDec := fun _ _ _ _ => .error "gcm InvalidTag"
  cbcDec := fun _ _ _ => .ok [123, 125, 88, 2]
  strOf := fun _ => ""

/-- Witness for C1 at a concrete library instance, ciphertext and key. -/
theorem c1_decipher_candidate_order_witness :
    ([1] : List Nat) ≠ []
      ∧ decrypt_body testLibs [0, 1] [1]
          = ((xorCandidate testLibs [0, 1] [1]).orElse fun _ =>
              ((gcmCandidate testLibs [0, 1] [1]).orElse fun _ =>
                cbcCandidate testLibs [0, 1] [1])) :=
  ⟨by decide, (c1_decipher_candidate_order testLibs [1] (by decide)).1 [0, 1]⟩

/-- Claim C2: the key unwrapper runs the OAEP attempt (RSA-OAEP, then
UTF-8 decode, then secondary base64 decode) as one unit; any failure in it
abandons the whole attempt and falls through to the PKCS1v15 attempt; if
the input base64 decode fails or both attempts fail the result is None,
and no exception reaches the caller (any escaped exception becomes None). -/
theorem c2_key_unwrap_fallback (L : Libs) (encrypted_key_b64 : String) :
    (decrypt_aes_key L encrypted_key_b64
        = match L.b64 encrypted_key_b64 with
          | .error _ => none
          | .ok ek =>
            ((dak_oaep_body L ek).toOption.orElse fun _ =>
              (dak_pkcs1_body L ek).toOption))
      ∧ (∀ e, decrypt_aes_key_exc L encrypted_key_b64 = .error e →
          decrypt_aes_key L encrypted_key_b64 = none) := by
  constructor
  · unfold decrypt_aes_key decrypt_aes_key_exc
    cases L.b64 encrypted_key_b64 with
    | error e => rfl
    | ok ek =>
      cases h1 : dak_oaep_body L ek with
      | ok k => simp [Except.toOption, Option.orElse, h1]
      | error e1 =>
        cases h2 : dak_pkcs1_body L ek with
        | ok k => simp [Except.toOption, Option.orElse, h1, h2]
        | error e2 => simp [Except.toOption, Option.orElse, h1, h2]
  · intro e he
    unfold decrypt_aes_key
    rw [he]

/-- Witness for C2 at a concrete input whose base64 decode raises. -/
theorem c2_key_unwrap_fallback_witness :
    decrypt_aes_key_exc testLibs "zz" = .error "binascii invalid base64"
      ∧ decrypt_aes_key testLibs "zz" = none :=
  ⟨rfl, (c2_key_unwrap_fallback testLibs "zz").2 "binascii invalid base64" rfl⟩

/-- Claim C10: the decipherer never lets an exception reach its caller:
for every input string and key (including the empty key, whose XOR index
expression raises ZeroDivisionError inside the first inner try, and
inputs whose base64 decode raises) the function returns an Option: the
exception-level computation always ends in ok, a failed base64 decode
yields None, and with an empty key the XOR candidate is skipped and the
chain continues with AES-GCM and AES-CBC. -/
theorem c10_decipher_never_raises (L : Libs) (s : String) (key data : List Nat) :
    decrypt_location_data_exc L s key = .ok (decrypt_location_data L s key)
      ∧ (∀ e, L.b64 s = .error e → decrypt_location_data L s key = none)
      ∧ decrypt_body L data []
          = ((gcmCandidate L data []).orElse fun _ => cbcCandidate L data []) := by
  refine ⟨?_, ?_, ?_⟩
  · unfold decrypt_location_data decrypt_location_data_exc
    cases L.b64 s with
    | error e => rfl
    | ok d => rfl
  · intro e he
    unfold decrypt_location_data decrypt_location_data_exc
    rw [he]
  · unfold decrypt_body attempt_xor
    simp only [List.isEmpty_nil, if_true]
    rw [attempt_gcm_chain L data []]
    cases gcmCandidate L data [] with
    | some j => simp [Option.orElse]
    | none =>
      by_cases hlen : 16 < data.length
      · rw [if_pos hlen, attempt_cbc_chain L data [] hlen]
        simp [Option.orElse]
      · have hcbc : cbcCandidate L data [] = none := by
          unfold cbcCandidate
          rw [if_neg hlen]
        rw [if_neg hlen, hcbc]
        simp [Option.orElse]

/-- Witness for C10 at a concrete non-base64 input and the empty key. -/
theorem c10_decipher_never_raises_witness :
    testLibs.b64 "zz" = .error "binascii invalid base64"
      ∧ decrypt_location_data testLibs "zz" [] = none :=
  ⟨rfl, (c10_decipher_never_raises testLibs "zz" [] []).2.1 "binascii invalid base64" rfl⟩

/-!
Claim C4 concerns the PKCS7 unpadding inside the AES-CBC method
(automated_decryption_pipeline.py lines 219-221):

    padding_length = padded_data[-1]
    unpadded_data = padded_data[:-padding_length]

modelled by pyUnpad above.  The specification requires the pad length to
be validated to lie in 1..16 and every pad byte to equal the pad length
before stripping; that policy is stated here as a separate definition for
comparison.
-/

/-- PKCS7 unpadding as the specification mandates it (and as the
cryptography.hazmat PKCS7 unpadder used by _decrypt_aes_cbc in
analyze_encryption_limits.py behaves): the final byte must lie in 1..16,
must not exceed the length, and every pad byte must equal it. -/
def pkcs7StripValidated (padded : List Nat) : Option (List Nat) :=
  match padded.getLast? with
  | none => none
  | some n =>
    if 1 ≤ n ∧ n ≤ 16 ∧ n ≤ padded.length
        ∧ (padded.drop (padded.length - n)).all (fun b => b == n)
    then some (padded.take (padded.length - n))
    else none

/-- Claim C4 evaluation at the failing input: on the AES-CBC plaintext
7b 7d 58 02 the final byte says pad length 2 but the preceding pad byte
is 58, so validated PKCS7 stripping rejects it; the pipeline's unpad
strips it anyway, and the full decipherer body emits the parsed JSON of
the mis-stripped bytes instead of failing. -/
theorem c4_cbc_unpad_skips_validation :
    pyUnpad [123, 125, 88, 2] = some [123, 125]
      ∧ pkcs7StripValidated [123, 125, 88, 2] = none
      ∧ decrypt_body testLibs (List.replicate 17 0) [1] = some (JVal.obj []) :=
  ⟨rfl, by decide, rfl⟩

/-!
Claim C3 concerns the raw-key fallback.  The pipeline's key unwrapper
decrypt_aes_key (embedded above) has no such fallback: its PKCS1v15
branch unconditionally UTF-8-decodes and base64-decodes the RSA
plaintext, and a failure there propagates to the outer handler, which
returns None.  The fallback exists only in decrypt_hybrid_format
(decrypt_survey_data.py lines 103-117), embedded next.
-/

/-- The key-normalization step of decrypt_hybrid_format:

    try:
        aes_key = base64.b64decode(aes_key_data.decode('utf-8'))
    except:
        aes_key = aes_key_data
-/
def hybrid_key_normalize (L : Libs) (aes_key_data : List Nat) : List Nat :=
  match (match L.utf8d aes_key_data with
         | .error e => (.error e : Except PyErr (List Nat))
         | .ok s => L.b64 s) with
  | .ok aes_key => aes_key
  | .error _ => aes_key_data

/-- The key-unwrap stage of decrypt_hybrid_format: RSA-PKCS1v15 decrypt
followed by the normalization; an exception in the RSA operation reaches
the function-level except handler, which returns None. -/
def decrypt_hybrid_key (L : Libs) (encrypted_key : List Nat) : Option (List Nat) :=
  match L.rsaPkcs1 encrypted_key with
  | .ok aes_key_data => some (hybrid_key_normalize L aes_key_data)
  | .error _ => none

/-- Counterexample to claim C3 as stated: in the pipeline unwrapper
decrypt_aes_key, the RSA-PKCS1v15 decryption of the key wrapped in "AAk"
succeeds with plaintext bytes [200], which are not decodable as UTF-8
base64 text, yet the unwrapper returns None instead of using the
RSA-decrypted bytes [200] directly. -/
theorem c3_pipeline_has_no_raw_fallback :
    testLibs.rsaPkcs1 [9] = .ok [200]
      ∧ decrypt_aes_key testLibs "AAk" = none
      ∧ decrypt_aes_key testLibs "AAk" ≠ some [200] :=
  ⟨rfl, rfl, by decide⟩

/-- Claim C3 amended: the raw-bytes path lives in decrypt_hybrid_format;
there, when the RSA-PKCS1v15 plaintext does not decode as UTF-8 base64
text, the RSA-decrypted bytes are used directly as the key, so unwrapping
an RSA-PKCS1v15-wrapped raw key returns the original key bytes whenever
those bytes are not themselves UTF-8 base64 text. -/
theorem c3_hybrid_raw_key_fallback (L : Libs) (encrypted_key rawKey : List Nat)
    (hrsa : L.rsaPkcs1 encrypted_key = .ok rawKey)
    (hnb : (L.utf8d rawKey).toOption.bind (fun s => (L.b64 s).toOption) = none) :
    decrypt_hybrid_key L encrypted_key = some rawKey := by
  unfold decrypt_hybrid_key
  rw [hrsa]
  unfold hybrid_key_normalize
  cases hu : L.utf8d rawKey with
  | error e => simp [hu]
  | ok s =>
    rw [hu] at hnb
    simp only [Except.toOption, Option.bind] at hnb
    cases hb : L.b64 s with
    | error e => simp [hu, hb]
    | ok k =>
      rw [hb] at hnb
      simp [Except.toOption] at hnb

/-- Witness for the amended C3 at concrete key material. -/
theorem c3_hybrid_raw_key_fallback_witness :
    (testLibs.rsaPkcs1 [9] = .ok [200]
        ∧ (testLibs.utf8d [200]).toOption.bind (fun s => (testLibs.b64 s).toOption) = none)
      ∧ decrypt_hybrid_key testLibs [9] = some [200] :=
  ⟨⟨rfl, rfl⟩, c3_hybrid_raw_key_fallback testLibs [9] [200] rfl rfl⟩

/-!
Batch processing: AutomatedDecryptionPipeline._process_survey_group
(automated_decryption_pipeline.py lines 315-434).  The model follows one
record's encrypted-data cell (a string, or none when the column is
missing) through the loop body, producing the value stored in that cell
of the emitted output row.
-/

/-- Envelope resolution inside the per-record try (lines 357-367):
ok (some pkg) on a parsed envelope, ok none when the bare `continue` of
line 367 runs (skipping the row append), error when a parse step raises. -/
def resolve_envelope (L : Libs) (v : String) : Except PyErr (Option JVal) :=
  if pyStartsWith v jsonPfx then
    match L.jsonp v with
    | .error e => .error e
    | .ok pkg => .ok (some pkg)
  else if pyStartsWith v b64Pfx then
    match L.b64 v with
    | .error e => .error e
    | .ok decoded =>
      match L.utf8d decoded with
      | .error e => .error e
      | .ok decoded_json =>
        match L.jsonp decoded_json with
        | .error e => .error e
        | .ok pkg => .ok (some pkg)
  else .ok none

/-- Lines 369-403: read the two envelope fields with dict.get (raising on
a non-dict package), and when both are truthy run the key unwrapper and
the payload decipherer; returns the string stored into the record's
encrypted-data cell.  When either field is missing or falsy the cell
keeps its original value orig.

For a truthy decrypted payload the source first stores the DECRYPTED
summary (line 383) but then runs two statements that raise when the
payload is not a dict: the membership test of line 387 (a TypeError for
a non-iterable payload such as a number or boolean, tested only when the
survey configuration extracts location data from this column) and the
decrypted_data.items() loop of line 395 (an AttributeError for every
non-dict).  Either exception reaches the handler of line 405, which
overwrites the cell; only the message text depends on the payload type
and the configuration, so the model raises one representative
AttributeError message per payload shape.  A truthy dict payload raises
at neither site (_extract_location_points guards itself with its own
try), so the DECRYPTED summary survives only for dicts. -/
def afterEnvelope (L : Libs) (pkg : JVal) (orig : String) : Except PyErr String :=
  match pkg.pyGet "encryptedData" with
  | .error e => .error e
  | .ok encrypted_data_b64 =>
    match pkg.pyGet "encryptedKey" with
    | .error e => .error e
    | .ok encrypted_key_b64 =>
      if encrypted_data_b64.truthy && encrypted_key_b64.truthy then
        match decrypt_aes_key_j L encrypted_key_b64 with
        | some aes_key =>
          if aes_key.isEmpty then .ok "KEY_DECRYPTION_FAILED"
          else
            match decrypt_location_data_j L encrypted_data_b64 aes_key with
            | some decrypted_data =>
              if decrypted_data.truthy then
                match decrypted_data with
                | JVal.obj _ =>
                  .ok ("DECRYPTED: " ++ toString (L.strOf decrypted_data).length ++ " chars")
                | JVal.arr _ => .error "list object has no attribute items"
                | JVal.str _ => .error "str object has no attribute items"
                | JVal.num _ => .error "int object has no attribute items"
                | JVal.bool _ => .error "bool object has no attribute items"
                | JVal.null => .error "NoneType object has no attribute items"
              else .ok "DECRYPTION_FAILED"
            | none => .ok "DECRYPTION_FAILED"
        | none => .ok "KEY_DECRYPTION_FAILED"
      else .ok orig

/-- One iteration of the per-record loop (lines 330-413) restricted to the
encrypted-data cell: none models a missing cell.  The result is none when
the `continue` skipped the row append, and some out when a row with cell
value out was appended; the except handler of line 405 converts any
exception raised in the try into the PROCESSING_ERROR sentinel with the
message truncated to 100 characters. -/
def processRecord (L : Libs) (field : Option String) : Option (Option String) :=
  match field with
  | none => some none
  | some v =>
    if v.isEmpty then some (some v)
    else if pyStartsWith v jsonPfx || pyStartsWith v b64Pfx then
      match resolve_envelope L v with
      | .ok (some pkg) =>
        match afterEnvelope L pkg v with
        | .ok out => some (some out)
        | .error e => some (some ("PROCESSING_ERROR: " ++ pySlice e 100))
      | .ok none => none
      | .error e => some (some ("PROCESSING_ERROR: " ++ pySlice e 100))
    else some (some ("NON_ENCRYPTED: " ++ pySlice v 50 ++ "..."))

/-- The loop over the whole group: one append per record unless a
`continue` skips it, and the appended list becomes the emitted rows. -/
def processBatch (L : Libs) (batch : List (Option String)) : List (Option String) :=
  batch.filterMap (processRecord L)

/-- Under the outer guard of lines 349-351, the inner dispatch of lines
358-366 always takes one of its two branches, so the `continue` of line
367 never runs. -/
lemma resolve_envelope_ne_ok_none (L : Libs) (v : String)
    (h : (pyStartsWith v jsonPfx || pyStartsWith v b64Pfx) = true) :
    resolve_envelope L v ≠ .ok none := by
  unfold resolve_envelope
  by_cases h1 : pyStartsWith v jsonPfx
  · rw [if_pos h1]
    cases L.jsonp v with
    | error e => simp
    | ok pkg => simp
  · have h2 : pyStartsWith v b64Pfx = true := by
      rcases Bool.or_eq_true_iff.mp h with hc | hc
      · exact absurd hc h1
      · exact hc
    rw [if_neg h1, if_pos h2]
    cases hb : L.b64 v with
    | error e => simp
    | ok decoded =>
      cases hu : L.utf8d decoded with
      | error e => simp [hu]
      | ok dj =>
        cases hj : L.jsonp dj with
        | error e => simp [hu, hj]
        | ok pkg => simp [hu, hj]

/-- Every record produces exactly one emitted row value. -/
lemma processRecord_total (L : Libs) (field : Option String) :
    ∃ out, processRecord L field = some out := by
  cases field with
  | none => exact ⟨none, rfl⟩
  | some v =>
    simp only [processRecord]
    by_cases he : v.isEmpty
    · rw [if_pos he]
      exact ⟨some v, rfl⟩
    · rw [if_neg he]
      by_cases hg : (pyStartsWith v jsonPfx || pyStartsWith v b64Pfx) = true
      · rw [if_pos hg]
        cases hr : resolve_envelope L v with
        | error e => exact ⟨some ("PROCESSING_ERROR: " ++ pySlice e 100), rfl⟩
        | ok o =>
          cases o with
          | none => exact absurd hr (resolve_envelope_ne_ok_none L v hg)
          | some pkg =>
            cases ha : afterEnvelope L pkg v with
            | ok out => exact ⟨some out, by simp [ha]⟩
            | error e => exact ⟨some ("PROCESSING_ERROR: " ++ pySlice e 100), by simp [ha]⟩
      · rw [if_neg hg]
        exact ⟨some ("NON_ENCRYPTED: " ++ pySlice v 50 ++ "..."), rfl⟩

lemma processBatch_length (L : Libs) (batch : List (Option String)) :
    (processBatch L batch).length = batch.length := by
  induction batch with
  | nil => rfl
  | cons f rest ih =>
    obtain ⟨out, hout⟩ := processRecord_total L f
    unfold processBatch at ih ⊢
    rw [List.filterMap_cons, hout]
    simp [ih]

/-- Claim C5: in the batch loop, a key-unwrap failure stores the sentinel
KEY_DECRYPTION_FAILED in the record's cell, a payload-decipher failure
stores DECRYPTION_FAILED, and an exception raised while processing the
record stores PROCESSING_ERROR: followed by the message truncated to 100
characters (covering both the envelope-parsing raises of lines 358-365
and the attribute-access raises of lines 386-397 on truthy non-dict
payloads); every record yields exactly one output row, processing
continues, and no exception escapes the per-record boundary. -/
theorem c5_per_record_error_handling (L : Libs) :
    (∀ field, ∃ out, processRecord L field = some out)
      ∧ (∀ batch, (processBatch L batch).length = batch.length)
      ∧ (∀ v pkg, v.isEmpty = false →
          (pyStartsWith v jsonPfx || pyStartsWith v b64Pfx) = true →
          resolve_envelope L v = .ok (some pkg) →
          processRecord L (some v)
            = some (some (match afterEnvelope L pkg v with
                          | .ok out => out
                          | .error e => "PROCESSING_ERROR: " ++ pySlice e 100)))
      ∧ (∀ pkg orig d k, pkg.pyGet "encryptedData" = .ok d →
          pkg.pyGet "encryptedKey" = .ok k →
          d.truthy = true → k.truthy = true →
          decrypt_aes_key_j L k = none →
          afterEnvelope L pkg orig = .ok "KEY_DECRYPTION_FAILED")
      ∧ (∀ pkg orig d k aes, pkg.pyGet "encryptedData" = .ok d →
          pkg.pyGet "encryptedKey" = .ok k →
          d.truthy = true → k.truthy = true →
          decrypt_aes_key_j L k = some aes → aes.isEmpty = false →
          decrypt_location_data_j L d aes = none →
          afterEnvelope L pkg orig = .ok "DECRYPTION_FAILED")
      ∧ (∀ v e, v.isEmpty = false →
          (pyStartsWith v jsonPfx || pyStartsWith v b64Pfx) = true →
          resolve_envelope L v = .error e →
          processRecord L (some v)
            = some (some ("PROCESSING_ERROR: " ++ pySlice e 100)))
      ∧ (∀ v pkg d k aes dd, v.isEmpty = false →
          (pyStartsWith v jsonPfx || pyStartsWith v b64Pfx) = true →
          resolve_envelope L v = .ok (some pkg) →
          pkg.pyGet "encryptedData" = .ok d →
          pkg.pyGet "encryptedKey" = .ok k →
          d.truthy = true → k.truthy = true →
          decrypt_aes_key_j L k = some aes → aes.isEmpty = false →
          decrypt_location_data_j L d aes = some dd → dd.truthy = true →
          (∀ f2, dd ≠ JVal.obj f2) →
          ∃ e, afterEnvelope L pkg v = .error e
            ∧ processRecord L (some v)
                = some (some ("PROCESSING_ERROR: " ++ pySlice e 100))) := by
  refine ⟨processRecord_total L, processBatch_length L, ?_, ?_, ?_, ?_, ?_⟩
  · intro v pkg he hg hr
    simp only [processRecord]
    rw [if_neg (by simp [he]), if_pos hg, hr]
    cases ha : afterEnvelope L pkg v with
    | ok out => simp [ha]
    | error e => simp [ha]
  · intro pkg orig d k hd hk htd htk hdk
    simp [afterEnvelope, hd, hk, htd, htk, hdk]
  · intro pkg orig d k aes hd hk htd htk haes hne hloc
    simp [afterEnvelope, hd, hk, htd, htk, haes, hne, hloc]
  · intro v e he hg hr
    simp only [processRecord]
    rw [if_neg (by simp [he]), if_pos hg, hr]
  · intro v pkg d k aes dd he hg hr hd hk htd htk haes hne hloc htr hnd
    have herr : ∃ e, afterEnvelope L pkg v = .error e := by
      cases dd with
      | obj f2 => exact absurd rfl (hnd f2)
      | arr items =>
        exact ⟨"list object has no attribute items",
          by simp [afterEnvelope, hd, hk, htd, htk, haes, hne, hloc, htr]⟩
      | str s =>
        exact ⟨"str object has no attribute items",
          by simp [afterEnvelope, hd, hk, htd, htk, haes, hne, hloc, htr]⟩
      | num n =>
        exact ⟨"int object has no attribute items",
          by simp [afterEnvelope, hd, hk, htd, htk, haes, hne, hloc, htr]⟩
      | bool b =>
        exact ⟨"bool object has no attribute items",
          by simp [afterEnvelope, hd, hk, htd, htk, haes, hne, hloc, htr]⟩
      | null => exact absurd htr (by simp [JVal.truthy])
    obtain ⟨e, hae⟩ := herr
    refine ⟨e, hae, ?_⟩
    simp only [processRecord]
    rw [if_neg (by simp [he]), if_pos hg, hr]
    simp [hae]

/-- Witness for C5: a concrete envelope with both fields present whose key
fails to unwrap is marked KEY_DECRYPTION_FAILED, and a concrete envelope
whose payload decrypts to a truthy non-dict value raises at the
attribute-access site and ends as a PROCESSING_ERROR cell. -/
theorem c5_per_record_error_handling_witness :
    (envBothVal.pyGet "encryptedData" = .ok (JVal.str "QQ==")
        ∧ envBothVal.pyGet "encryptedKey" = .ok (JVal.str "not-base64!!")
        ∧ (JVal.str "QQ==").truthy = true
        ∧ (JVal.str "not-base64!!").truthy = true
        ∧ decrypt_aes_key_j testLibs (JVal.str "not-base64!!") = none)
      ∧ afterEnvelope testLibs envBothVal "orig" = .ok "KEY_DECRYPTION_FAILED"
      ∧ (decrypt_aes_key_j testLibs (JVal.str "KEY2") = some [123]
          ∧ decrypt_location_data_j testLibs (JVal.str "AAE") [123]
              = some (JVal.arr [JVal.num 1]))
      ∧ ∃ e, afterEnvelope testLibs envLocVal envLocStr = .error e
          ∧ processRecord testLibs (some envLocStr)
              = some (some ("PROCESSING_ERROR: " ++ pySlice e 100)) :=
  ⟨⟨rfl, rfl, rfl, rfl, rfl⟩,
   (c5_per_record_error_handling testLibs).2.2.2.1 envBothVal "orig"
     (JVal.str "QQ==") (JVal.str "not-base64!!") rfl rfl rfl rfl rfl,
   ⟨rfl, rfl⟩,
   (c5_per_record_error_handling testLibs).2.2.2.2.2.2 envLocStr envLocVal
     (JVal.str "AAE") (JVal.str "KEY2") [123] (JVal.arr [JVal.num 1])
     rfl rfl rfl rfl rfl rfl rfl rfl rfl rfl rfl (fun _ h => nomatch h)⟩

/-- Counterexample to claim C6 as stated: a non-prefixed string is not
returned verbatim; the batch loop replaces the cell with the marker
NON_ENCRYPTED: followed by the first 50 characters and an ellipsis. -/
theorem c6_passthrough_not_verbatim :
    processRecord testLibs (some "plain text")
        = some (some "NON_ENCRYPTED: plain text...")
      ∧ ("NON_ENCRYPTED: plain text..." : String) ≠ "plain text" :=
  ⟨rfl, by decide⟩

/-- Claim C6 amended: a field starting with the direct-JSON marker is
parsed directly as JSON; otherwise a field starting with eyJ is
base64-decoded, UTF-8-decoded and JSON-parsed; any other nonempty field
is never sent to the key unwrapper or the payload decipherer (for every
behaviour of the external libraries the resolver yields no envelope and
the cell is rewritten independently of the decryption functions), and the
cell receives the NON_ENCRYPTED marker with the first 50 characters of
the value, not the verbatim value. -/
theorem c6_envelope_dispatch (L : Libs) (v : String) :
    (pyStartsWith v jsonPfx = true →
        resolve_envelope L v
          = match L.jsonp v with
            | .error e => .error e
            | .ok pkg => .ok (some pkg))
      ∧ (pyStartsWith v jsonPfx = false → pyStartsWith v b64Pfx = true →
          resolve_envelope L v
            = match L.b64 v with
              | .error e => .error e
              | .ok decoded =>
                match L.utf8d decoded with
                | .error e => .error e
                | .ok dj =>
                  match L.jsonp dj with
                  | .error e => .error e
                  | .ok pkg => .ok (some pkg))
      ∧ (pyStartsWith v jsonPfx = false → pyStartsWith v b64Pfx = false →
          v.isEmpty = false →
          resolve_envelope L v = .ok none
            ∧ processRecord L (some v)
                = some (some ("NON_ENCRYPTED: " ++ pySlice v 50 ++ "..."))) := by
  refine ⟨?_, ?_, ?_⟩
  · intro h1
    unfold resolve_envelope
    rw [if_pos h1]
  · intro h1 h2
    unfold resolve_envelope
    rw [if_neg (by simp [h1]), if_pos h2]
  · intro h1 h2 he
    constructor
    · unfold resolve_envelope
      rw [if_neg (by simp [h1]), if_neg (by simp [h2])]
    · simp only [processRecord]
      rw [if_neg (by simp [he]), if_neg (by simp [h1, h2])]

/-- Witness for the amended C6 at a concrete plaintext field. -/
theorem c6_envelope_dispatch_witness :
    (pyStartsWith "plain text" jsonPfx = false
        ∧ pyStartsWith "plain text" b64Pfx = false
        ∧ ("plain text" : String).isEmpty = false)
      ∧ (resolve_envelope testLibs "plain text" = .ok none
          ∧ processRecord testLibs (some "plain text")
              = some (some ("NON_ENCRYPTED: " ++ pySlice "plain text" 50 ++ "..."))) :=
  ⟨⟨rfl, rfl, rfl⟩, (c6_envelope_dispatch testLibs "plain text").2.2 rfl rfl rfl⟩

/-- Counterexample to claim C8 as stated: the record whose field is the
envelope missing encryptedKey is processed without exception, but it does
not yield any per-record failure outcome: the cell keeps its original
value and carries none of the failure sentinels. -/
theorem c8_missing_field_keeps_value :
    processRecord testLibs (some malformedEnvelopeStr)
        = some (some malformedEnvelopeStr)
      ∧ malformedEnvelopeStr ≠ "KEY_DECRYPTION_FAILED"
      ∧ malformedEnvelopeStr ≠ "DECRYPTION_FAILED"
      ∧ pyStartsWith malformedEnvelopeStr "PROCESSING_ERROR: " = false :=
  ⟨rfl, by decide, by decide, rfl⟩

/-- Claim C8 amended: a record whose field parses as an envelope but whose
encryptedData or encryptedKey is missing or falsy is processed without any
unhandled exception: the cell keeps its original value (no failure
sentinel is recorded), an output row is still emitted, and the processing
of the other records in the batch is unaffected (the batch output splits
around any sublist). -/
theorem c8_missing_or_malformed_fields_recoverable (L : Libs) (v : String)
    (pkg d k : JVal)
    (he : v.isEmpty = false)
    (hg : (pyStartsWith v jsonPfx || pyStartsWith v b64Pfx) = true)
    (hr : resolve_envelope L v = .ok (some pkg))
    (hd : pkg.pyGet "encryptedData" = .ok d)
    (hk : pkg.pyGet "encryptedKey" = .ok k)
    (hf : (d.truthy && k.truthy) = false) :
    processRecord L (some v) = some (some v)
      ∧ ∀ b1 b2, processBatch L (b1 ++ b2) = processBatch L b1 ++ processBatch L b2 := by
  constructor
  · simp only [processRecord]
    rw [if_neg (by simp [he]), if_pos hg, hr]
    have ha : afterEnvelope L pkg v = .ok v := by
      simp [afterEnvelope, hd, hk, hf]
    simp [ha]
  · intro b1 b2
    unfold processBatch
    exact List.filterMap_append b1 b2 (processRecord L)

/-- Witness for the amended C8 at the envelope missing encryptedKey. -/
theorem c8_missing_or_malformed_fields_recoverable_witness :
    (malformedEnvelopeStr.isEmpty = false
        ∧ (pyStartsWith malformedEnvelopeStr jsonPfx
            || pyStartsWith malformedEnvelopeStr b64Pfx) = true
        ∧ resolve_envelope testLibs malformedEnvelopeStr = .ok (some malformedEnvelopeVal)
        ∧ malformedEnvelopeVal.pyGet "encryptedData" = .ok (JVal.str "not-base64!!")
        ∧ malformedEnvelopeVal.pyGet "encryptedKey" = .ok JVal.null
        ∧ ((JVal.str "not-base64!!").truthy && JVal.null.truthy) = false)
      ∧ processRecord testLibs (some malformedEnvelopeStr)
          = some (some malformedEnvelopeStr) :=
  ⟨⟨rfl, rfl, rfl, rfl, rfl, rfl⟩,
   (c8_missing_or_malformed_fields_recoverable testLibs malformedEnvelopeStr
     malformedEnvelopeVal (JVal.str "not-base64!!") JVal.null
     rfl rfl rfl rfl rfl rfl).1⟩

/-!
AutomatedDecryptionPipeline._extract_location_points
(automated_decryption_pipeline.py lines 436-460).
-/

/-- One extracted location-point row: the dict appended for one sample. -/
structure LocRecord where
  response_id : String
  point_sequence : Nat
  timestamp : JVal
  latitude : JVal
  longitude : JVal
  accuracy : JVal
  altitude : JVal
  speed : JVal
  heading : JVal
  provider : JVal
  battery_level : JVal
  is_mock : JVal

/-- The row built for the sample at 0-based index i (lines 443-456):
point_sequence is i + 1 and every field uses loc.get with default the
empty string (batteryLevel and isMock feed the battery_level and is_mock
columns). -/
def mkLoc (response_id : String) (i : Nat) (loc : JVal) : LocRecord :=
  { response_id := response_id
    point_sequence := i + 1
    timestamp := loc.getD "timestamp" (JVal.str "")
    latitude := loc.getD "latitude" (JVal.str "")
    longitude := loc.getD "longitude" (JVal.str "")
    accuracy := loc.getD "accuracy" (JVal.str "")
    altitude := loc.getD "altitude" (JVal.str "")
    speed := loc.getD "speed" (JVal.str "")
    heading := loc.getD "heading" (JVal.str "")
    provider := loc.getD "provider" (JVal.str "")
    battery_level := loc.getD "batteryLevel" (JVal.str "")
    is_mock := loc.getD "isMock" (JVal.str "") }

/-- The for loop over enumerate(locationData) (lines 441-456): the index
advances for every entry, and only dict entries append a row. -/
def extract_loop (response_id : String) : Nat → List JVal → List LocRecord
  | _, [] => []
  | i, loc :: rest =>
    match loc with
    | JVal.obj fields =>
        mkLoc response_id i (JVal.obj fields) :: extract_loop response_id (i + 1) rest
    | _ => extract_loop response_id (i + 1) rest

/-- _extract_location_points: runs the loop when locationData is present
and is a list; on any other payload shape the guard fails (or the inner
indexing raises into the surrounding try) and the empty list built so far
is returned. -/
def extract_location_points (response_id : String) : JVal → List LocRecord
  | JVal.obj fields =>
    match fields.lookup "locationData" with
    | some (JVal.arr items) => extract_loop response_id 0 items
    | _ => []
  | _ => []

lemma extract_loop_eq_enumFrom (response_id : String) (i : Nat) (items : List JVal) :
    extract_loop response_id i items
      = (List.enumFrom i items).filterMap fun p =>
          match p.2 with
          | JVal.obj fields => some (mkLoc response_id p.1 (JVal.obj fields))
          | _ => none := by
  induction items generalizing i with
  | nil => rfl
  | cons loc rest ih =>
    cases loc with
    | obj fields => simp [extract_loop, List.enumFrom, ih]
    | str s => simp [extract_loop, List.enumFrom, ih]
    | num n => simp [extract_loop, List.enumFrom, ih]
    | bool b => simp [extract_loop, List.enumFrom, ih]
    | null => simp [extract_loop, List.enumFrom, ih]
    | arr l => simp [extract_loop, List.enumFrom, ih]

/-- Claim C9: the extracted location-point rows are the dict entries of
locationData in their original order (an order-preserving filterMap over
the enumerated list), and each row's point_sequence is one plus its
0-based position in the original list, i.e. its 1-based position. -/
theorem c9_location_order_preserved (response_id : String)
    (fields : List (String × JVal)) (items : List JVal)
    (h : fields.lookup "locationData" = some (JVal.arr items)) :
    extract_location_points response_id (JVal.obj fields)
        = items.enum.filterMap (fun p =>
            match p.2 with
            | JVal.obj f2 => some (mkLoc response_id p.1 (JVal.obj f2))
            | _ => none)
      ∧ (extract_location_points response_id (JVal.obj fields)).map
            LocRecord.point_sequence
          = items.enum.filterMap (fun p =>
              match p.2 with
              | JVal.obj _ => some (p.1 + 1)
              | _ => none) := by
  have h1 : extract_location_points response_id (JVal.obj fields)
      = items.enum.filterMap (fun p =>
          match p.2 with
          | JVal.obj f2 => some (mkLoc response_id p.1 (JVal.obj f2))
          | _ => none) := by
    simp only [extract_location_points]
    rw [h]
    simp only []
    rw [extract_loop_eq_enumFrom, List.enum]
  refine ⟨h1, ?_⟩
  rw [h1, List.map_filterMap]
  apply List.filterMap_congr
  intro p _
  cases p with
  | mk i loc =>
    cases loc with
    | obj f2 => rfl
    | str s => rfl
    | num n => rfl
    | bool b => rfl
    | null => rfl
    | arr l => rfl

/-- Witness for C9 at a concrete payload with a non-dict entry between
two dict samples. -/
theorem c9_location_order_preserved_witness :
    ([("locationData",
        JVal.arr [JVal.obj [("latitude", JVal.num 1)], JVal.str "x", JVal.obj []])]
          : List (String × JVal)).lookup "locationData"
        = some (JVal.arr [JVal.obj [("latitude", JVal.num 1)], JVal.str "x", JVal.obj []])
      ∧ extract_location_points "r1"
          (JVal.obj [("locationData",
            JVal.arr [JVal.obj [("latitude", JVal.num 1)], JVal.str "x", JVal.obj []])])
        = ([JVal.obj [("latitude", JVal.num 1)], JVal.str "x",
            JVal.obj []].enum.filterMap (fun p =>
              match p.2 with
              | JVal.obj f2 => some (mkLoc "r1" p.1 (JVal.obj f2))
              | _ => none)) :=
  ⟨rfl,
   (c9_location_order_preserved "r1"
     [("locationData",
       JVal.arr [JVal.obj [("latitude", JVal.num 1)], JVal.str "x", JVal.obj []])]
     [JVal.obj [("latitude", JVal.num 1)], JVal.str "x", JVal.obj []] rfl).1⟩
